import Mathlib

/-
Verification of the aiwolf-nlp-agent core against its specification.

Shallow embedding of:
  src/agent/agent.py   (Agent: packet merge, context building, handlers, timeout)
  src/llm/context.py   (GameContext, LLMState)
  src/llm/talk_agent.py, src/llm/action_agent.py (system-prompt functions)
  src/llm/models.py    (TalkOutput, ActionOutput)
Python mutation is modelled by explicit state passing; Python exceptions by
Except; the random module by an explicit index argument r (random.choice on a
non-empty list l returns l[i] for some i < len(l); on an empty list it raises
IndexError).
-/

namespace AiwolfAgent

/-- Agent liveness status (aiwolf_nlp_common.packet.Status), as used by
Agent.get_alive_agents. -/
inductive Status where
  | ALIVE
  | DEAD
deriving DecidableEq

/-- Display string of a status (Status.value in Python). -/
def Status.value : Status → String
  | .ALIVE => "ALIVE"
  | .DEAD => "DEAD"

/-- Request kinds of the protocol (aiwolf_nlp_common.packet.Request). -/
inductive Request where
  | NAME
  | TALK
  | WHISPER
  | VOTE
  | DIVINE
  | GUARD
  | ATTACK
  | INITIALIZE
  | DAILY_INITIALIZE
  | DAILY_FINISH
  | FINISH
deriving DecidableEq

/-- One transcript entry (aiwolf_nlp_common.packet.Talk): speaker, day, turn,
sequence index, text, and the two exclusion flags skip and over. -/
structure Talk where
  agent : String
  day : Nat
  turn : Nat
  idx : Nat
  text : String
  skip : Bool
  over : Bool
deriving DecidableEq

/-- The dict built from a Talk in Agent._build_context (agent.py lines 189-198):
keys agent, day, text, turn, idx; the skip and over flags are dropped. -/
structure TalkDict where
  agent : String
  day : Nat
  text : String
  turn : Nat
  idx : Nat
deriving DecidableEq

/-- A divine or medium result record as stored by
Agent._update_llm_state_from_packet (agent.py lines 156-173): day, target and
the result display string. -/
structure ResultRec where
  day : Nat
  target : String
  result : String
deriving DecidableEq

/-- One vote record as stored by Agent._update_llm_state_from_packet
(agent.py lines 174-177): day, voter and target. -/
structure VoteRec where
  day : Nat
  agent : String
  target : String
deriving DecidableEq

/-- Game info snapshot (aiwolf_nlp_common.packet.Info), restricted to the
fields the source reads. status_map and role_map are insertion-ordered dicts,
modelled as association lists. Roles are modelled by their display string
(Role.value). -/
structure Info where
  day : Nat
  status_map : List (String × Status)
  role_map : List (String × String)
  divine_result : Option ResultRec
  medium_result : Option ResultRec
  executed_agent : Option String
  attacked_agent : Option String
  remain_count : Option Nat
  remain_length : Option Nat
  profile : Option String
  vote_list : List VoteRec
deriving DecidableEq

/-- Timeout sub-settings (Setting.timeout): per-action budget in
milliseconds. -/
structure TimeoutSettings where
  action : Nat
deriving DecidableEq

/-- Server settings (aiwolf_nlp_common.packet.Setting), restricted to the
field read by Agent.timeout. -/
structure Setting where
  timeout : TimeoutSettings
deriving DecidableEq

/-- One inbound packet (aiwolf_nlp_common.packet.Packet). Optional fields are
Options; the transcript appends are lists whose Python truthiness test
(non-None and non-empty) is modelled by a non-emptiness test. -/
structure Packet where
  request : Request
  info : Option Info
  setting : Option Setting
  talk_history : List Talk
  whisper_history : List Talk
deriving DecidableEq

/-- LLM state kept per game (llm/context.py lines 38-53). Message histories
are modelled as lists of opaque message strings. current_day starts at -1,
hence Int. -/
structure LLMState where
  strategy_memo : String
  suspicion : List (String × String)
  talk_message_history : List String
  whisper_message_history : List String
  current_day : Int
  divine_results : List ResultRec
  medium_results : List ResultRec
  profile : String
  vote_list : List VoteRec
deriving DecidableEq

/-- LLMState.reset_if_new_day (llm/context.py lines 55-66): when day differs
from current_day, clear the two message histories and record the new day;
otherwise leave the state untouched. -/
def LLMState.reset_if_new_day (ls : LLMState) (day : Int) : LLMState :=
  if day ≠ ls.current_day then
    { ls with
      talk_message_history := []
      whisper_message_history := []
      current_day := day }
  else ls

/-- LLMState.reset_game (llm/context.py lines 68-81): every field back to its
empty default. -/
def LLMState.reset_game (_ls : LLMState) : LLMState :=
  { strategy_memo := ""
    suspicion := []
    talk_message_history := []
    whisper_message_history := []
    current_day := -1
    divine_results := []
    medium_results := []
    profile := ""
    vote_list := [] }

/-- The game context handed to the decision pipeline (llm/context.py lines
11-35). These are exactly the dataclass fields; there is no emotional_state
and no relationships field. -/
structure GameContext where
  agent_name : String
  role : String
  day : Nat
  alive_agents : List String
  talk_history : List TalkDict
  whisper_history : List TalkDict
  divine_results : List ResultRec
  medium_results : List ResultRec
  status_map : List (String × String)
  role_map : List (String × String)
  profile : String
  executed_agent : Option String
  attacked_agent : Option String
  vote_list : List VoteRec
  strategy_memo : String
  suspicion : List (String × String)
  remain_count : Option Nat
  remain_length : Option Nat
deriving DecidableEq

/-- Structured talk output (llm/models.py lines 11-22). -/
structure TalkOutput where
  thought : String
  utterance : String
  strategy_memo : String
  suspicion : List (String × String)
  emotional_state : String
  relationships : List (String × String)
deriving DecidableEq

/-- Structured action output (llm/models.py lines 25-36). -/
structure ActionOutput where
  reason : String
  target : String
  strategy_memo : String
  suspicion : List (String × String)
  emotional_state : String
  relationships : List (String × String)
deriving DecidableEq

/-- Python exceptions observable in this core: AttributeError (missing
dataclass attribute), ValueError (invalid pipeline target, agent.py line 318),
IndexError (random.choice on an empty sequence), the distinguished
Exception("No result") of the timeout wrapper (agent.py line 86), and other
opaque faults. -/
inductive PyError where
  | attributeError
  | valueError (msg : String)
  | indexError
  | noResult
  | other (msg : String)
deriving DecidableEq

/-- The mutable state of one Agent instance (agent.py lines 49-70), as far as
the verified core reads it. -/
structure AgentState where
  agent_name : String
  role : String
  request : Option Request
  info : Option Info
  setting : Option Setting
  talk_history : List Talk
  whisper_history : List Talk
  comments : List String
  llm_enabled : Bool
  llm_state : LLMState
  kill_on_timeout : Bool
deriving DecidableEq

/-- random.choice(l) with the random draw made explicit as an index argument:
returns l[r % len(l)] for a non-empty l and raises IndexError on an empty
one. -/
def random_choice (l : List String) (r : Nat) : Except PyError String :=
  if h : l = [] then .error .indexError
  else .ok (l.get ⟨r % l.length, Nat.mod_lt r (List.length_pos.mpr h)⟩)

/-- Agent._update_llm_state_from_packet (agent.py lines 147-177): profile,
divine/medium result accumulation and vote list replacement, each guarded by
the Python truthiness of the corresponding Info field. -/
def update_llm_state_from_packet (st : AgentState) : AgentState :=
  match st.info with
  | none => st
  | some info =>
    let ls := st.llm_state
    let ls := match info.profile with
      | some p => if p ≠ "" then { ls with profile := p } else ls
      | none => ls
    let ls := match info.divine_result with
      | some dr => { ls with divine_results := ls.divine_results ++ [⟨dr.day, dr.target, dr.result⟩] }
      | none => ls
    let ls := match info.medium_result with
      | some mr => { ls with medium_results := ls.medium_results ++ [⟨mr.day, mr.target, mr.result⟩] }
      | none => ls
    let ls := if info.vote_list ≠ [] then { ls with vote_list := info.vote_list } else ls
    { st with llm_state := ls }

/-- Agent.set_packet (agent.py lines 122-145): store the request kind,
additively merge info/setting/transcript appends, then clear both transcripts
when the request kind is INITIALIZE, and finally refresh the LLM state when
the pipeline is enabled. -/
def set_packet (st : AgentState) (p : Packet) : AgentState :=
  let st := { st with request := some p.request }
  let st := match p.info with
    | some i => { st with info := some i }
    | none => st
  let st := match p.setting with
    | some s => { st with setting := some s }
    | none => st
  let st := if p.talk_history ≠ [] then
      { st with talk_history := st.talk_history ++ p.talk_history }
    else st
  let st := if p.whisper_history ≠ [] then
      { st with whisper_history := st.whisper_history ++ p.whisper_history }
    else st
  let st := if p.request = Request.INITIALIZE then
      { st with talk_history := [], whisper_history := [] }
    else st
  if st.llm_enabled then update_llm_state_from_packet st else st

/-- Agent.get_alive_agents (agent.py lines 321-331): names whose status is
ALIVE, in status_map insertion order; empty when no info has arrived. -/
def get_alive_agents (st : AgentState) : List String :=
  match st.info with
  | none => []
  | some i => (i.status_map.filter (fun kv => kv.2 = Status.ALIVE)).map Prod.fst

/-- The exclusion test of the transcript comprehensions in
Agent._build_context (agent.py lines 192 and 197): keep an entry iff neither
flag is set. -/
def keepEntry (t : Talk) : Bool := !t.skip && !t.over

/-- The dict construction of the transcript comprehensions in
Agent._build_context (agent.py lines 190 and 195). -/
def talkToDict (t : Talk) : TalkDict :=
  { agent := t.agent, day := t.day, text := t.text, turn := t.turn, idx := t.idx }

/-- The day read used at several places: self.info.day if self.info else 0. -/
def info_day (st : AgentState) : Nat :=
  match st.info with
  | some i => i.day
  | none => 0

/-- Agent._build_context (agent.py lines 179-220): filter both transcripts,
reduce status/role maps to display strings, and copy the LLM state fields into
a fresh GameContext. The Python list(x) and dict(x) calls are top-level
(shallow) copies; in this value model they appear as the identity, and their
aliasing structure is modelled separately by the heap model below. -/
def build_context (st : AgentState) : GameContext :=
  { agent_name := st.agent_name
    role := st.role
    day := info_day st
    alive_agents := get_alive_agents st
    talk_history := (st.talk_history.filter keepEntry).map talkToDict
    whisper_history := (st.whisper_history.filter keepEntry).map talkToDict
    divine_results := st.llm_state.divine_results
    medium_results := st.llm_state.medium_results
    status_map := match st.info with
      | some i => i.status_map.map (fun kv => (kv.1, kv.2.value))
      | none => []
    role_map := match st.info with
      | some i => i.role_map
      | none => []
    profile := st.llm_state.profile
    executed_agent := match st.info with
      | some i => i.executed_agent
      | none => none
    attacked_agent := match st.info with
      | some i => i.attacked_agent
      | none => none
    vote_list := st.llm_state.vote_list
    strategy_memo := st.llm_state.strategy_memo
    suspicion := st.llm_state.suspicion
    remain_count := match st.info with
      | some i => i.remain_count
      | none => none
    remain_length := match st.info with
      | some i => i.remain_length
      | none => none }

/-- Modelled from the spec: the prompt text constants live in llm/prompts.py,
which is out of scope per spec section 1 (the prompt text is explicitly not
specified); only their existence matters to the claims. -/
def BASE_TALK_PROMPT : String := "BASE_TALK_PROMPT"

/-- Modelled from the spec: prompt text constant from llm/prompts.py, out of
scope per spec section 1. -/
def NATURALNESS_GUIDELINES : String := "NATURALNESS_GUIDELINES"

/-- Modelled from the spec: prompt text constant from llm/prompts.py, out of
scope per spec section 1. -/
def WHISPER_PROMPT : String := "WHISPER_PROMPT"

/-- Modelled from the spec: prompt text constant from llm/prompts.py, out of
scope per spec section 1. -/
def BASE_ACTION_PROMPT : String := "BASE_ACTION_PROMPT"

/-- Modelled from the spec: prompt text constant from llm/prompts.py, out of
scope per spec section 1. -/
def VOTE_PROMPT : String := "VOTE_PROMPT"

/-- Modelled from the spec: role-keyed prompt dict from llm/prompts.py, out of
scope per spec section 1; the contents are irrelevant to the claims. -/
def ROLE_TALK_PROMPTS : List (String × String) := []

/-- Modelled from the spec: role-and-action-keyed prompt dict from
llm/prompts.py, out of scope per spec section 1. -/
def ROLE_ACTION_PROMPTS : List (String × List (String × String)) := []

/-- get_action_user_prompt (llm/action_agent.py lines 171-187). -/
def get_action_user_prompt (action_type : String) (role : String) : String :=
  if action_type = "vote" then
    (((ROLE_ACTION_PROMPTS.lookup role).getD []).lookup "vote").getD VOTE_PROMPT
  else
    (((ROLE_ACTION_PROMPTS.lookup role).getD []).lookup action_type).getD
      (action_type ++ "の対象を選んでください。")

/-- A Python value read off a GameContext attribute, covering the types of the
dataclass fields. -/
inductive PyVal where
  | pyStr (s : String)
  | pyInt (n : Nat)
  | pyOptStr (s : Option String)
  | pyOptInt (n : Option Nat)
  | pyStrList (l : List String)
  | pyTalkList (l : List TalkDict)
  | pyResList (l : List ResultRec)
  | pyVoteList (l : List VoteRec)
  | pyDict (d : List (String × String))
deriving DecidableEq

/-- Python truthiness of a PyVal: empty strings, zero, None and empty
containers are falsy. -/
def pyTruthy : PyVal → Bool
  | .pyStr s => s ≠ ""
  | .pyInt n => n ≠ 0
  | .pyOptStr s => match s with | some v => v ≠ "" | none => false
  | .pyOptInt n => match n with | some v => v ≠ 0 | none => false
  | .pyStrList l => l ≠ []
  | .pyTalkList l => l ≠ []
  | .pyResList l => l ≠ []
  | .pyVoteList l => l ≠ []
  | .pyDict d => d ≠ []

/-- Display form of a PyVal where one is interpolated into a prompt string. -/
def pyShow : PyVal → String
  | .pyStr s => s
  | .pyInt n => toString n
  | .pyOptStr s => match s with | some v => v | none => "None"
  | .pyOptInt n => match n with | some v => toString v | none => "None"
  | _ => ""

/-- Items of a PyVal read as a string-to-string dict. -/
def pyDictItems : PyVal → List (String × String)
  | .pyDict d => d
  | _ => []

/-- Dynamic attribute access ctx.deps.name on the GameContext dataclass
(llm/context.py lines 11-35): defined attributes return their value, any other
name raises AttributeError. The listed names are exactly the dataclass
fields. -/
def GameContext.getDynAttr (ctx : GameContext) (name : String) : Except PyError PyVal :=
  match name with
  | "agent_name" => .ok (.pyStr ctx.agent_name)
  | "role" => .ok (.pyStr ctx.role)
  | "day" => .ok (.pyInt ctx.day)
  | "alive_agents" => .ok (.pyStrList ctx.alive_agents)
  | "talk_history" => .ok (.pyTalkList ctx.talk_history)
  | "whisper_history" => .ok (.pyTalkList ctx.whisper_history)
  | "divine_results" => .ok (.pyResList ctx.divine_results)
  | "medium_results" => .ok (.pyResList ctx.medium_results)
  | "status_map" => .ok (.pyDict ctx.status_map)
  | "role_map" => .ok (.pyDict ctx.role_map)
  | "profile" => .ok (.pyStr ctx.profile)
  | "executed_agent" => .ok (.pyOptStr ctx.executed_agent)
  | "attacked_agent" => .ok (.pyOptStr ctx.attacked_agent)
  | "vote_list" => .ok (.pyVoteList ctx.vote_list)
  | "strategy_memo" => .ok (.pyStr ctx.strategy_memo)
  | "suspicion" => .ok (.pyDict ctx.suspicion)
  | "remain_count" => .ok (.pyOptInt ctx.remain_count)
  | "remain_length" => .ok (.pyOptInt ctx.remain_length)
  | _ => .error .attributeError

/-- Formatting of one accumulated result line in the game-state prompts
(talk_agent.py lines 99 and 102, action_agent.py lines 44 and 47). -/
def resultLine (r : ResultRec) : String :=
  "  Day" ++ toString r.day ++ ": " ++ r.target ++ " → " ++ r.result

namespace TalkAgentPrompts

/-- base_prompt (talk_agent.py lines 22-28). -/
def base_prompt (_ctx : GameContext) : Except PyError String :=
  .ok BASE_TALK_PROMPT

/-- naturalness_prompt (talk_agent.py lines 31-37). -/
def naturalness_prompt (_ctx : GameContext) : Except PyError String :=
  .ok NATURALNESS_GUIDELINES

/-- role_prompt (talk_agent.py lines 40-46). -/
def role_prompt (ctx : GameContext) : Except PyError String :=
  .ok ((ROLE_TALK_PROMPTS.lookup ctx.role).getD "")

/-- persona_prompt (talk_agent.py lines 49-63). -/
def persona_prompt (ctx : GameContext) : Except PyError String :=
  .ok (if ctx.profile = "" then ""
  else
    ("=== あなたのキャラクター ===\n" ++ ctx.profile ++ "\n\n"
      ++ "このキャラクターの性格・口調・年齢にふさわしい話し方をしてください。\n"
      ++ "性格に基づく反応（例: 臆病なら不安を見せる、勇敢なら堂々とする）を自然に表現してください。\n"
      ++ "ゲーム的に最適な発言よりも、このキャラクターが本当に言いそうなことを優先してください。"))

/-- emotional_context (talk_agent.py lines 66-83): reads
ctx.deps.emotional_state and ctx.deps.relationships, neither of which is a
GameContext field, so the first access raises AttributeError. -/
def emotional_context (ctx : GameContext) : Except PyError String := do
  let es ← ctx.getDynAttr "emotional_state"
  let lines1 : List String :=
    if pyTruthy es then
      ["=== 現在の感情状態 ===\n" ++ pyShow es,
       "この感情が発言のトーンや内容に自然に影響するようにしてください。"]
    else []
  let rel ← ctx.getDynAttr "relationships"
  let lines2 : List String :=
    if pyTruthy rel then
      "=== 他プレイヤーとの関係性 ===" ::
        (pyDictItems rel).map (fun p => "  " ++ p.1 ++ ": " ++ p.2)
    else []
  .ok (String.intercalate "\n" (lines1 ++ lines2))

/-- game_state_prompt (talk_agent.py lines 86-112). -/
def game_state_prompt (ctx : GameContext) : Except PyError String :=
  let lines : List String :=
    ["=== ゲーム状態 ===",
     "名前: " ++ ctx.agent_name ++ " / 役職: " ++ ctx.role ++ " / " ++ toString ctx.day ++ "日目",
     "生存者: " ++ String.intercalate ", " ctx.alive_agents]
  let lines := if ctx.divine_results ≠ [] then
      lines ++ ["占い結果:\n" ++ String.intercalate "\n" (ctx.divine_results.map resultLine)]
    else lines
  let lines := if ctx.medium_results ≠ [] then
      lines ++ ["霊媒結果:\n" ++ String.intercalate "\n" (ctx.medium_results.map resultLine)]
    else lines
  let lines := match ctx.executed_agent with
    | some a => if a ≠ "" then lines ++ ["前日の処刑: " ++ a] else lines
    | none => lines
  let lines := match ctx.attacked_agent with
    | some a => if a ≠ "" then lines ++ ["前夜の襲撃: " ++ a] else lines
    | none => lines
  let lines := match ctx.remain_count with
    | some n => lines ++ ["残り発言回数: " ++ toString n]
    | none => lines
  let lines := match ctx.remain_length with
    | some n => lines ++ ["残り文字数: " ++ toString n]
    | none => lines
  .ok (String.intercalate "\n" lines)

/-- strategy_context (talk_agent.py lines 115-128). -/
def strategy_context (ctx : GameContext) : Except PyError String :=
  let lines : List String :=
    if ctx.strategy_memo ≠ "" then
      ["=== 戦略メモ（前回の自分の推論） ===\n" ++ ctx.strategy_memo]
    else []
  let lines := if ctx.suspicion ≠ [] then
      lines ++ ("=== 各プレイヤー評価 ===" ::
        ctx.suspicion.map (fun p => "  " ++ p.1 ++ ": " ++ p.2))
    else lines
  .ok (String.intercalate "\n" lines)

/-- whisper_context (talk_agent.py lines 131-142). -/
def whisper_context (ctx : GameContext) : Except PyError String :=
  .ok (if ctx.role = "WEREWOLF" ∧
      (ctx.role_map.any (fun p => p.2 = "WEREWOLF" ∧ p.1 ≠ ctx.agent_name)) then
    let allies := (ctx.role_map.filter
      (fun p => p.2 = "WEREWOLF" ∧ p.1 ≠ ctx.agent_name)).map Prod.fst
    ("=== 人狼仲間 ===\n" ++ String.intercalate ", " allies ++ "\n" ++ WHISPER_PROMPT)
  else "")

end TalkAgentPrompts

namespace ActionAgentPrompts

/-- base_prompt (action_agent.py lines 22-28). -/
def base_prompt (_ctx : GameContext) : Except PyError String :=
  .ok BASE_ACTION_PROMPT

/-- game_state_prompt (action_agent.py lines 31-53). -/
def game_state_prompt (ctx : GameContext) : Except PyError String :=
  let lines : List String :=
    ["=== ゲーム状態 ===",
     "名前: " ++ ctx.agent_name ++ " / 役職: " ++ ctx.role ++ " / " ++ toString ctx.day ++ "日目",
     "生存者: " ++ String.intercalate ", " ctx.alive_agents]
  let lines := if ctx.divine_results ≠ [] then
      lines ++ ["占い結果:\n" ++ String.intercalate "\n" (ctx.divine_results.map resultLine)]
    else lines
  let lines := if ctx.medium_results ≠ [] then
      lines ++ ["霊媒結果:\n" ++ String.intercalate "\n" (ctx.medium_results.map resultLine)]
    else lines
  let lines := match ctx.executed_agent with
    | some a => if a ≠ "" then lines ++ ["前日の処刑: " ++ a] else lines
    | none => lines
  let lines := match ctx.attacked_agent with
    | some a => if a ≠ "" then lines ++ ["前夜の襲撃: " ++ a] else lines
    | none => lines
  .ok (String.intercalate "\n" lines)

/-- strategy_and_emotional_context (action_agent.py lines 56-75): after the
strategy lines it reads ctx.deps.emotional_state, which is not a GameContext
field, so the access raises AttributeError. -/
def strategy_and_emotional_context (ctx : GameContext) : Except PyError String := do
  let lines : List String :=
    if ctx.strategy_memo ≠ "" then ["=== 戦略メモ ===\n" ++ ctx.strategy_memo] else []
  let lines := if ctx.suspicion ≠ [] then
      lines ++ ("=== 各プレイヤー評価 ===" ::
        ctx.suspicion.map (fun p => "  " ++ p.1 ++ ": " ++ p.2))
    else lines
  let es ← ctx.getDynAttr "emotional_state"
  let lines := if pyTruthy es then
      lines ++ ["=== 現在の感情状態 ===\n" ++ pyShow es]
    else lines
  let rel ← ctx.getDynAttr "relationships"
  let lines := if pyTruthy rel then
      lines ++ ("=== 他プレイヤーとの関係性 ===" ::
        (pyDictItems rel).map (fun p => "  " ++ p.1 ++ ": " ++ p.2))
    else lines
  .ok (String.intercalate "\n" lines)

end ActionAgentPrompts

/-- Evaluate a list of system-prompt functions in registration order,
propagating the first fault. -/
def runPrompts (ps : List (GameContext → Except PyError String)) (ctx : GameContext) :
    Except PyError (List String) :=
  match ps with
  | [] => .ok []
  | f :: rest => do
    let s ← f ctx
    let t ← runPrompts rest ctx
    .ok (s :: t)

/-- The system prompts registered on talk_agent, in source registration order
(talk_agent.py lines 22-142). -/
def talk_system_prompts : List (GameContext → Except PyError String) :=
  [TalkAgentPrompts.base_prompt,
   TalkAgentPrompts.naturalness_prompt,
   TalkAgentPrompts.role_prompt,
   TalkAgentPrompts.persona_prompt,
   TalkAgentPrompts.emotional_context,
   TalkAgentPrompts.game_state_prompt,
   TalkAgentPrompts.strategy_context,
   TalkAgentPrompts.whisper_context]

/-- The system prompts registered on action_agent, in source registration
order (action_agent.py lines 22-75). -/
def action_system_prompts : List (GameContext → Except PyError String) :=
  [ActionAgentPrompts.base_prompt,
   ActionAgentPrompts.game_state_prompt,
   ActionAgentPrompts.strategy_and_emotional_context]

/-- The external model invocation behind talk_agent.run_sync, out of scope:
given the context and the per-channel message history it either produces a
TalkOutput together with the new message list or faults. -/
def TalkModel : Type := GameContext → List String → Except PyError (TalkOutput × List String)

/-- The external model invocation behind action_agent.run_sync, out of scope:
given the context and the user prompt it either produces an ActionOutput or
faults. -/
def ActionModel : Type := GameContext → String → Except PyError ActionOutput

/-- Modelled from the spec: run_sync of the Decision Pipeline Adapter (spec
section 4.2) evaluates every registered system prompt before invoking the
external model, and any internal fault — including one raised by a system
prompt — is raised out of the call. The pydantic_ai run machinery itself is
not part of this repository. -/
def run_talk_agent (ext : TalkModel) (ctx : GameContext) (msgs : List String) :
    Except PyError (TalkOutput × List String) := do
  let _ ← runPrompts talk_system_prompts ctx
  ext ctx msgs

/-- Modelled from the spec: run_sync of the action-side Decision Pipeline
Adapter (spec section 4.2), analogous to run_talk_agent. -/
def run_action_agent (ext : ActionModel) (ctx : GameContext) (user_prompt : String) :
    Except PyError ActionOutput := do
  let _ ← runPrompts action_system_prompts ctx
  ext ctx user_prompt

/-- The state mutation of llm_state.reset_if_new_day(day) inside the talk and
whisper handlers (agent.py lines 233-234 and 264-265), with day read as
self.info.day if self.info else 0. -/
def reset_talk_state (st : AgentState) : AgentState :=
  { st with llm_state := st.llm_state.reset_if_new_day (info_day st) }

/-- The state writes after a successful talk pipeline call (agent.py lines
244-246): message history, strategy memo and suspicion. -/
def apply_talk_output (st : AgentState) (out : TalkOutput) (msgs : List String) : AgentState :=
  { st with llm_state :=
    { st.llm_state with
      talk_message_history := msgs
      strategy_memo := out.strategy_memo
      suspicion := out.suspicion } }

/-- The state writes after a successful whisper pipeline call (agent.py lines
275-277). -/
def apply_whisper_output (st : AgentState) (out : TalkOutput) (msgs : List String) : AgentState :=
  { st with llm_state :=
    { st.llm_state with
      whisper_message_history := msgs
      strategy_memo := out.strategy_memo
      suspicion := out.suspicion } }

/-- The state writes after the action pipeline call returns (agent.py lines
309-310): strategy memo and suspicion, written before target validation. -/
def apply_action_output (st : AgentState) (out : ActionOutput) : AgentState :=
  { st with llm_state :=
    { st.llm_state with
      strategy_memo := out.strategy_memo
      suspicion := out.suspicion } }

/-- Agent._llm_talk (agent.py lines 222-251): build the context from the
current state (line 232), then reset the per-day state (line 234), then call
the adapter with the post-reset talk message history (lines 237-242); on
success record the new history, memo and suspicion and return the utterance.
An error carries the state as mutated so far, since the Python mutations
before the raise persist. -/
def llm_talk (st : AgentState) (adapter : TalkModel) :
    Except (PyError × AgentState) (String × AgentState) :=
  match adapter (build_context st) (reset_talk_state st).llm_state.talk_message_history with
  | .error e => .error (e, reset_talk_state st)
  | .ok (out, msgs) => .ok (out.utterance, apply_talk_output (reset_talk_state st) out msgs)

/-- Agent._llm_whisper (agent.py lines 253-281): same shape as _llm_talk with
the whisper message history. -/
def llm_whisper (st : AgentState) (adapter : TalkModel) :
    Except (PyError × AgentState) (String × AgentState) :=
  match adapter (build_context st) (reset_talk_state st).llm_state.whisper_message_history with
  | .error e => .error (e, reset_talk_state st)
  | .ok (out, msgs) => .ok (out.utterance, apply_whisper_output (reset_talk_state st) out msgs)

/-- Agent._llm_action (agent.py lines 283-319): build the context, call the
adapter with the per-role user prompt, record memo and suspicion, then
validate the returned target against the current alive-agent set and raise
ValueError(target) for a non-member. -/
def llm_action (st : AgentState) (adapter : ActionModel) (action_type : String) :
    Except (PyError × AgentState) (String × AgentState) :=
  match adapter (build_context st) (get_action_user_prompt action_type st.role) with
  | .error e => .error (e, st)
  | .ok out =>
    if out.target ∈ get_alive_agents (apply_action_output st out) then
      .ok (out.target, apply_action_output st out)
    else
      .error (.valueError out.target, apply_action_output st out)

/-- Agent.talk (agent.py lines 372-385): when the pipeline is enabled, try
_llm_talk and on any exception fall back to random.choice(self.comments);
when disabled, go straight to the fallback. -/
def talk (st : AgentState) (adapter : TalkModel) (r : Nat) :
    Except PyError (String × AgentState) :=
  if st.llm_enabled then
    match llm_talk st adapter with
    | .ok res => .ok res
    | .error (_, st1) => (random_choice st1.comments r).map (fun s => (s, st1))
  else
    (random_choice st.comments r).map (fun s => (s, st))

/-- Agent.whisper (agent.py lines 357-370): same shape as talk with
_llm_whisper. -/
def whisper (st : AgentState) (adapter : TalkModel) (r : Nat) :
    Except PyError (String × AgentState) :=
  if st.llm_enabled then
    match llm_whisper st adapter with
    | .ok res => .ok res
    | .error (_, st1) => (random_choice st1.comments r).map (fun s => (s, st1))
  else
    (random_choice st.comments r).map (fun s => (s, st))

/-- The common shape of Agent.vote / divine / guard / attack (agent.py lines
393-451), which are textually identical up to the action type string: when
the pipeline is enabled, try _llm_action and on any exception fall back to
random.choice(self.get_alive_agents()); when disabled, go straight to the
fallback. -/
def target_handler (st : AgentState) (adapter : ActionModel) (action_type : String) (r : Nat) :
    Except PyError (String × AgentState) :=
  if st.llm_enabled then
    match llm_action st adapter action_type with
    | .ok res => .ok res
    | .error (_, st1) => (random_choice (get_alive_agents st1) r).map (fun s => (s, st1))
  else
    (random_choice (get_alive_agents st) r).map (fun s => (s, st))

/-- Agent.vote (agent.py lines 423-436). -/
def vote (st : AgentState) (adapter : ActionModel) (r : Nat) :
    Except PyError (String × AgentState) :=
  target_handler st adapter "vote" r

/-- Agent.divine (agent.py lines 393-406). -/
def divine (st : AgentState) (adapter : ActionModel) (r : Nat) :
    Except PyError (String × AgentState) :=
  target_handler st adapter "divine" r

/-- Agent.guard (agent.py lines 408-421). -/
def guard (st : AgentState) (adapter : ActionModel) (r : Nat) :
    Except PyError (String × AgentState) :=
  target_handler st adapter "guard" r

/-- Agent.attack (agent.py lines 438-451). -/
def attack (st : AgentState) (adapter : ActionModel) (r : Nat) :
    Except PyError (String × AgentState) :=
  target_handler st adapter "attack" r

/-- Outcome possibly recorded by the worker thread of Agent.timeout into the
res slot (agent.py lines 88-93): either the handler value (a string or None)
or the exception it raised. -/
inductive ExecOutcome where
  | value (s : Option String)
  | exc (e : PyError)
deriving DecidableEq

/-- Result-slot protocol of Agent.timeout (agent.py lines 85-118): res starts
as the distinguished Exception("No result"); the worker overwrites it with
the handler outcome; after the wait ends, an Exception left in the slot is
raised and a plain value is returned. recorded = none models a bounded wait
that elapsed before the worker ever wrote the slot. -/
def timeout_result (recorded : Option ExecOutcome) : Except PyError (Option String) :=
  match recorded with
  | none => .error .noResult
  | some (.value v) => .ok v
  | some (.exc e) => .error e

/-- Deadline computation of Agent.timeout (agent.py line 100): the action
timeout in milliseconds when settings are present, else 0, floor-divided by
1000. -/
def timeout_value (setting : Option Setting) : Nat :=
  (match setting with
   | some s => s.timeout.action
   | none => 0) / 1000

/-- How the executor waits (agent.py lines 101-115): a positive computed
deadline gives a bounded join, otherwise an unbounded join. -/
inductive WaitPlan where
  | bounded (secs : Nat)
  | unbounded
deriving DecidableEq

/-- Wait selection of Agent.timeout (agent.py lines 101-115). -/
def wait_plan (setting : Option Setting) : WaitPlan :=
  if timeout_value setting > 0 then .bounded (timeout_value setting) else .unbounded

/-- Whether the executor issues thread.stop() (agent.py lines 101-113): only
inside the bounded branch, only when the worker is still alive after the join
and the kill_on_timeout configuration flag is set. -/
def force_stop (setting : Option Setting) (kill_on_timeout still_alive : Bool) : Bool :=
  match wait_plan setting with
  | .bounded _ => still_alive && kill_on_timeout
  | .unbounded => false

/-- The three observable operations of a text-action decision call. -/
inductive LLMCallStep where
  | buildSnapshot
  | resetDay
  | runPipeline
deriving DecidableEq

/-- Statement order of Agent._llm_talk (agent.py lines 232-242): the context
is built at line 232, reset_if_new_day runs at line 234, and the pipeline call
follows at line 237. -/
def llm_talk_steps : List LLMCallStep :=
  [.buildSnapshot, .resetDay, .runPipeline]

/-- Statement order of Agent._llm_whisper (agent.py lines 263-273): the
context is built at line 263, reset_if_new_day runs at line 265, and the
pipeline call follows at line 268. -/
def llm_whisper_steps : List LLMCallStep :=
  [.buildSnapshot, .resetDay, .runPipeline]

/-- The text-action call with the order the spec states (spec sections 4.5
and 8: the day-boundary reset happens before the snapshot is built), written
for comparison with llm_talk, which follows the source order. -/
def llm_talk_reset_first (st : AgentState) (adapter : TalkModel) :
    Except (PyError × AgentState) (String × AgentState) :=
  match adapter (build_context (reset_talk_state st))
      (reset_talk_state st).llm_state.talk_message_history with
  | .error e => .error (e, reset_talk_state st)
  | .ok (out, msgs) => .ok (out.utterance, apply_talk_output (reset_talk_state st) out msgs)

/-- The whisper call with the reset performed before the snapshot build,
written for comparison with llm_whisper. -/
def llm_whisper_reset_first (st : AgentState) (adapter : TalkModel) :
    Except (PyError × AgentState) (String × AgentState) :=
  match adapter (build_context (reset_talk_state st))
      (reset_talk_state st).llm_state.whisper_message_history with
  | .error e => .error (e, reset_talk_state st)
  | .ok (out, msgs) => .ok (out.utterance, apply_whisper_output (reset_talk_state st) out msgs)

/-- Heap of mutable Python dict objects (the result/vote records), addressed
by position. -/
abbrev RecHeap : Type := List ResultRec

/-- Heap of mutable Python list objects: each list object holds the addresses
of its element dicts. -/
abbrev ListHeap : Type := List (List Nat)

/-- Python list(x) as performed by _build_context (agent.py lines 208, 209 and
215): allocate a fresh list object holding the same element addresses as the
source list object, and return its address. The element dicts themselves are
not copied. -/
def pyListCopy (lh : ListHeap) (src : Nat) : ListHeap × Nat :=
  (lh ++ [lh.getD src []], lh.length)

/-- In-place mutation of a list object (append, remove, slice assignment):
replace the contents stored at the given address. -/
def writeList (lh : ListHeap) (addr : Nat) (elems : List Nat) : ListHeap :=
  lh.set addr elems

/-- In-place mutation of one record dict, e.g. snapshot.divine_results[i]
being written through. -/
def writeRec (rh : RecHeap) (addr : Nat) (v : ResultRec) : RecHeap :=
  rh.set addr v

/-- The sequence of record values an owner of a list object observes: element
addresses dereferenced through the record heap. -/
def readList (lh : ListHeap) (rh : RecHeap) (addr : Nat) : List ResultRec :=
  (lh.getD addr []).map (fun a => rh.getD a ⟨0, "", ""⟩)

/-- A concrete game info value used by the witnesses: day 1, three alive
agents A, B, C. -/
def sample_info : Info :=
  { day := 1
    status_map := [("A", .ALIVE), ("B", .ALIVE), ("C", .ALIVE)]
    role_map := []
    divine_result := none
    medium_result := none
    executed_agent := none
    attacked_agent := none
    remain_count := none
    remain_length := none
    profile := none
    vote_list := [] }

/-- A concrete LLM state with every persistent field non-trivial, used by the
witnesses. -/
def sample_llm_state : LLMState :=
  { strategy_memo := "memo"
    suspicion := [("B", "怪しい")]
    talk_message_history := ["m1"]
    whisper_message_history := ["w1"]
    current_day := 1
    divine_results := [⟨1, "B", "WEREWOLF"⟩]
    medium_results := [⟨1, "C", "HUMAN"⟩]
    profile := "prof"
    vote_list := [⟨1, "A", "B"⟩] }

/-- A concrete agent state used by the witnesses: pipeline enabled, fallback
pool of two utterances, three alive agents. -/
def sample_state : AgentState :=
  { agent_name := "A"
    role := "SEER"
    request := none
    info := some sample_info
    setting := none
    talk_history := []
    whisper_history := []
    comments := ["hello", "hi"]
    llm_enabled := true
    llm_state := sample_llm_state
    kill_on_timeout := false }

/-- A pipeline answer naming the non-member target Z, the scenario of spec
section 8. -/
def bad_action_output : ActionOutput :=
  { reason := "r"
    target := "Z"
    strategy_memo := "m"
    suspicion := []
    emotional_state := ""
    relationships := [] }

/-- A concrete transcript entry carried by the INITIALIZE packet of the C5
scenario. -/
def sample_talk_entry : Talk := ⟨"A", 1, 0, 0, "こんにちは", false, false⟩

/-- A packet whose request kind is INITIALIZE and that also carries an
appended transcript entry. -/
def init_packet : Packet := ⟨.INITIALIZE, none, none, [sample_talk_entry], []⟩

/-- An external talk model that faults on every call. -/
def failing_talk_model : TalkModel := fun _ _ => .error (.other "fault")

/-- An external action model that faults on every call. -/
def failing_action_model : ActionModel := fun _ _ => .error (.other "fault")

/-- An external action model that always answers with the invalid target Z. -/
def const_action_model : ActionModel := fun _ _ => .ok bad_action_output

/- ------------------------------------------------------------------ -/
/- Helper lemmas                                                       -/
/- ------------------------------------------------------------------ -/

theorem random_choice_spec (l : List String) (r : Nat) (h : l ≠ []) :
    ∃ s, random_choice l r = .ok s ∧ s ∈ l := by
  refine ⟨l.get ⟨r % l.length, Nat.mod_lt r (List.length_pos.mpr h)⟩, ?_,
    List.get_mem l (r % l.length) (Nat.mod_lt r (List.length_pos.mpr h))⟩
  simp [random_choice, h]

theorem reset_talk_state_comments (st : AgentState) :
    (reset_talk_state st).comments = st.comments := rfl

theorem talk_always_falls_back (st : AgentState) (pT : TalkModel) (r : Nat)
    (hc : st.comments ≠ [])
    (hfail : st.llm_enabled = false ∨ ∀ ctx msgs, ∃ e, pT ctx msgs = .error e) :
    ∃ s st1, talk st pT r = .ok (s, st1) ∧ s ∈ st.comments := by
  obtain ⟨s, hs, hmem⟩ := random_choice_spec st.comments r hc
  rcases hfail with hdis | hf
  · exact ⟨s, st, by simp [talk, hdis, hs, Except.map], hmem⟩
  · by_cases hen : st.llm_enabled
    · obtain ⟨e, he⟩ :=
        hf (build_context st) (reset_talk_state st).llm_state.talk_message_history
      have herr : llm_talk st pT = .error (e, reset_talk_state st) := by
        simp [llm_talk, he]
      exact ⟨s, reset_talk_state st,
        by simp [talk, hen, herr, reset_talk_state_comments, hs, Except.map], hmem⟩
    · exact ⟨s, st, by simp [talk, hen, hs, Except.map], hmem⟩

theorem whisper_always_falls_back (st : AgentState) (pT : TalkModel) (r : Nat)
    (hc : st.comments ≠ [])
    (hfail : st.llm_enabled = false ∨ ∀ ctx msgs, ∃ e, pT ctx msgs = .error e) :
    ∃ s st1, whisper st pT r = .ok (s, st1) ∧ s ∈ st.comments := by
  obtain ⟨s, hs, hmem⟩ := random_choice_spec st.comments r hc
  rcases hfail with hdis | hf
  · exact ⟨s, st, by simp [whisper, hdis, hs, Except.map], hmem⟩
  · by_cases hen : st.llm_enabled
    · obtain ⟨e, he⟩ :=
        hf (build_context st) (reset_talk_state st).llm_state.whisper_message_history
      have herr : llm_whisper st pT = .error (e, reset_talk_state st) := by
        simp [llm_whisper, he]
      exact ⟨s, reset_talk_state st,
        by simp [whisper, hen, herr, reset_talk_state_comments, hs, Except.map], hmem⟩
    · exact ⟨s, st, by simp [whisper, hen, hs, Except.map], hmem⟩

theorem target_always_falls_back (st : AgentState) (pA : ActionModel)
    (action_type : String) (r : Nat)
    (ha : get_alive_agents st ≠ [])
    (hfail : st.llm_enabled = false ∨ ∀ ctx up, ∃ e, pA ctx up = .error e) :
    ∃ s st1, target_handler st pA action_type r = .ok (s, st1) ∧
      s ∈ get_alive_agents st := by
  obtain ⟨s, hs, hmem⟩ := random_choice_spec (get_alive_agents st) r ha
  rcases hfail with hdis | hf
  · exact ⟨s, st, by simp [target_handler, hdis, hs, Except.map], hmem⟩
  · by_cases hen : st.llm_enabled
    · obtain ⟨e, he⟩ :=
        hf (build_context st) (get_action_user_prompt action_type st.role)
      have herr : llm_action st pA action_type = .error (e, st) := by
        simp [llm_action, he]
      exact ⟨s, st, by simp [target_handler, hen, herr, hs, Except.map], hmem⟩
    · exact ⟨s, st, by simp [target_handler, hen, hs, Except.map], hmem⟩

/- ------------------------------------------------------------------ -/
/- Claims                                                              -/
/- ------------------------------------------------------------------ -/

/-- C3: every invocation of the timeout-wrapped action produces exactly one of
a returned value and a propagated failure, and when the bounded wait elapses
with no result ever recorded in the slot, the distinguished No-result failure
is raised out of the call rather than being converted into a fallback
answer. -/
theorem timeout_result_exactly_one (recorded : Option ExecOutcome) :
    ((∃ v, timeout_result recorded = .ok v) ∨
     (∃ e, timeout_result recorded = .error e)) ∧
    (¬((∃ v, timeout_result recorded = .ok v) ∧
       (∃ e, timeout_result recorded = .error e))) ∧
    (recorded = none → timeout_result recorded = .error .noResult) := by
  rcases recorded with _ | o
  · exact ⟨.inr ⟨.noResult, rfl⟩,
      by rintro ⟨⟨v, hv⟩, -⟩; simp [timeout_result] at hv,
      fun _ => rfl⟩
  · rcases o with v | e
    · exact ⟨.inl ⟨v, rfl⟩,
        by rintro ⟨-, ⟨e, he⟩⟩; simp [timeout_result] at he,
        by intro h; cases h⟩
    · exact ⟨.inr ⟨e, rfl⟩,
        by rintro ⟨⟨v, hv⟩, -⟩; simp [timeout_result] at hv,
        by intro h; cases h⟩

/-- Witness for C3 at the concrete no-result input. -/
theorem timeout_result_exactly_one_witness :
    (((∃ v, timeout_result none = .ok v) ∨
      (∃ e, timeout_result none = .error e)) ∧
     ¬((∃ v, timeout_result none = .ok v) ∧
       (∃ e, timeout_result none = .error e))) ∧
    timeout_result none = .error .noResult :=
  ⟨⟨(timeout_result_exactly_one none).1, (timeout_result_exactly_one none).2.1⟩,
   (timeout_result_exactly_one none).2.2 rfl⟩

/-- C4: the executor computes its deadline as the action timeout in
milliseconds floor-divided by 1000 (Nat division is floor division), and
whenever that quotient is 0 — in particular for a zero timeout, a timeout
below 1000 ms, or absent settings — the caller joins without a deadline and
never issues a stop to the worker, whatever the kill flag and however long the
worker stays alive. -/
theorem timeout_zero_waits_forever (setting : Option Setting) (k a : Bool) :
    timeout_value setting =
      (match setting with | some s => s.timeout.action | none => 0) / 1000 ∧
    (timeout_value setting = 0 →
      wait_plan setting = .unbounded ∧ force_stop setting k a = false) ∧
    (setting = none →
      wait_plan setting = .unbounded ∧ force_stop setting k a = false) ∧
    (∀ s, setting = some s → s.timeout.action < 1000 →
      wait_plan setting = .unbounded ∧ force_stop setting k a = false) := by
  have hz : ∀ h0 : timeout_value setting = 0,
      wait_plan setting = .unbounded ∧ force_stop setting k a = false := by
    intro h0
    constructor
    · simp [wait_plan, h0]
    · simp [force_stop, wait_plan, h0]
  refine ⟨rfl, hz, fun hn => ?_, fun s hs hlt => ?_⟩
  · exact hz (by simp [timeout_value, hn])
  · exact hz (by simp [timeout_value, hs, Nat.div_eq_of_lt hlt])

/-- Witness for C4 at a concrete sub-second timeout setting. -/
theorem timeout_zero_waits_forever_witness :
    wait_plan (some ⟨⟨999⟩⟩) = .unbounded ∧
    force_stop (some ⟨⟨999⟩⟩) true true = false :=
  (timeout_zero_waits_forever (some ⟨⟨999⟩⟩) true true).2.1 (by decide)

/-- C7: when the given day differs from the last-seen day, reset_if_new_day
empties exactly the two per-channel message transcripts and records the new
day, while strategy memo, suspicion, divine results, medium results, profile
and vote records are unchanged; when the given day equals the last-seen day,
the state is unchanged. -/
theorem reset_if_new_day_frame (ls : LLMState) (d2 : Int) :
    (d2 ≠ ls.current_day →
      (ls.reset_if_new_day d2).talk_message_history = [] ∧
      (ls.reset_if_new_day d2).whisper_message_history = [] ∧
      (ls.reset_if_new_day d2).current_day = d2 ∧
      (ls.reset_if_new_day d2).strategy_memo = ls.strategy_memo ∧
      (ls.reset_if_new_day d2).suspicion = ls.suspicion ∧
      (ls.reset_if_new_day d2).divine_results = ls.divine_results ∧
      (ls.reset_if_new_day d2).medium_results = ls.medium_results ∧
      (ls.reset_if_new_day d2).profile = ls.profile ∧
      (ls.reset_if_new_day d2).vote_list = ls.vote_list) ∧
    (d2 = ls.current_day → ls.reset_if_new_day d2 = ls) := by
  constructor <;> intro h <;> simp [LLMState.reset_if_new_day, h]

/-- Witness for C7 at a concrete state built at day 1 and reset day 3. -/
theorem reset_if_new_day_frame_witness :
    ((sample_llm_state.reset_if_new_day 3).talk_message_history = [] ∧
     (sample_llm_state.reset_if_new_day 3).whisper_message_history = [] ∧
     (sample_llm_state.reset_if_new_day 3).current_day = 3 ∧
     (sample_llm_state.reset_if_new_day 3).strategy_memo = sample_llm_state.strategy_memo ∧
     (sample_llm_state.reset_if_new_day 3).suspicion = sample_llm_state.suspicion ∧
     (sample_llm_state.reset_if_new_day 3).divine_results = sample_llm_state.divine_results ∧
     (sample_llm_state.reset_if_new_day 3).medium_results = sample_llm_state.medium_results ∧
     (sample_llm_state.reset_if_new_day 3).profile = sample_llm_state.profile ∧
     (sample_llm_state.reset_if_new_day 3).vote_list = sample_llm_state.vote_list) ∧
    sample_llm_state.reset_if_new_day 1 = sample_llm_state :=
  ⟨(reset_if_new_day_frame sample_llm_state 3).1 (by decide),
   (reset_if_new_day_frame sample_llm_state 1).2 (by decide)⟩

/-- C8: the snapshot built from the accumulated transcripts contains exactly
the entries whose skip flag and over flag are both false, in the relative
order of the source transcript, for the talk channel and the whisper channel
alike. -/
theorem build_context_filters_flags (st : AgentState) :
    (build_context st).talk_history =
      (st.talk_history.filter (fun t => t.skip = false ∧ t.over = false)).map talkToDict ∧
    (build_context st).whisper_history =
      (st.whisper_history.filter (fun t => t.skip = false ∧ t.over = false)).map talkToDict := by
  have hp : ∀ t : Talk, keepEntry t = decide (t.skip = false ∧ t.over = false) := by
    intro t
    cases hs : t.skip <;> cases ho : t.over <;> simp [keepEntry, hs, ho]
  constructor <;>
    simp only [build_context] <;>
    exact congrArg (List.map talkToDict) (List.filter_congr (fun t _ => hp t))

/-- C1: when the pipeline is disabled or every pipeline call faults, talk and
whisper return a member of the fallback utterance pool loaded at construction,
vote, divine, guard and attack return a member of the current alive-agent
set, and no pipeline failure propagates out of any handler, provided the pool
is non-empty and at least one agent is alive. -/
theorem fallback_membership
    (st : AgentState) (pT : TalkModel) (pA : ActionModel) (r : Nat)
    (hc : st.comments ≠ [])
    (ha : get_alive_agents st ≠ [])
    (hfail : st.llm_enabled = false ∨
      ((∀ ctx msgs, ∃ e, pT ctx msgs = .error e) ∧
       (∀ ctx up, ∃ e, pA ctx up = .error e))) :
    (∃ s st1, talk st pT r = .ok (s, st1) ∧ s ∈ st.comments) ∧
    (∃ s st1, whisper st pT r = .ok (s, st1) ∧ s ∈ st.comments) ∧
    (∃ s st1, vote st pA r = .ok (s, st1) ∧ s ∈ get_alive_agents st) ∧
    (∃ s st1, divine st pA r = .ok (s, st1) ∧ s ∈ get_alive_agents st) ∧
    (∃ s st1, guard st pA r = .ok (s, st1) ∧ s ∈ get_alive_agents st) ∧
    (∃ s st1, attack st pA r = .ok (s, st1) ∧ s ∈ get_alive_agents st) := by
  have hT : st.llm_enabled = false ∨ ∀ ctx msgs, ∃ e, pT ctx msgs = .error e :=
    hfail.imp id And.left
  have hA : st.llm_enabled = false ∨ ∀ ctx up, ∃ e, pA ctx up = .error e :=
    hfail.imp id And.right
  exact ⟨talk_always_falls_back st pT r hc hT,
    whisper_always_falls_back st pT r hc hT,
    target_always_falls_back st pA "vote" r ha hA,
    target_always_falls_back st pA "divine" r ha hA,
    target_always_falls_back st pA "guard" r ha hA,
    target_always_falls_back st pA "attack" r ha hA⟩

/-- Witness for C1 at a concrete enabled agent with an always-faulting
pipeline. -/
theorem fallback_membership_witness :
    (∃ s st1, talk sample_state failing_talk_model 0 = .ok (s, st1) ∧
      s ∈ sample_state.comments) ∧
    (∃ s st1, whisper sample_state failing_talk_model 0 = .ok (s, st1) ∧
      s ∈ sample_state.comments) ∧
    (∃ s st1, vote sample_state failing_action_model 0 = .ok (s, st1) ∧
      s ∈ get_alive_agents sample_state) ∧
    (∃ s st1, divine sample_state failing_action_model 0 = .ok (s, st1) ∧
      s ∈ get_alive_agents sample_state) ∧
    (∃ s st1, guard sample_state failing_action_model 0 = .ok (s, st1) ∧
      s ∈ get_alive_agents sample_state) ∧
    (∃ s st1, attack sample_state failing_action_model 0 = .ok (s, st1) ∧
      s ∈ get_alive_agents sample_state) :=
  fallback_membership sample_state failing_talk_model failing_action_model 0
    (by decide) (by decide)
    (Or.inr ⟨fun _ _ => ⟨.other "fault", rfl⟩, fun _ _ => ⟨.other "fault", rfl⟩⟩)

/-- C2: when the pipeline answers a target action with a name outside the
current alive-agent set, the validation in the action caller raises
ValueError on that target, and the handler recovers by falling back to a
member of the alive-agent set. -/
theorem invalid_target_fallback
    (st : AgentState) (pA : ActionModel) (out : ActionOutput) (r : Nat)
    (hen : st.llm_enabled = true)
    (hret : ∀ ctx up, pA ctx up = .ok out)
    (hbad : out.target ∉ get_alive_agents st)
    (ha : get_alive_agents st ≠ []) :
    llm_action st pA "divine" = .error (.valueError out.target, apply_action_output st out) ∧
    (∃ s st1, divine st pA r = .ok (s, st1) ∧ s ∈ get_alive_agents st) := by
  have halive : get_alive_agents (apply_action_output st out) = get_alive_agents st := rfl
  have h1 : llm_action st pA "divine" =
      .error (.valueError out.target, apply_action_output st out) := by
    simp [llm_action, hret, halive, hbad]
  obtain ⟨s, hs, hmem⟩ := random_choice_spec (get_alive_agents st) r ha
  refine ⟨h1, s, apply_action_output st out, ?_, hmem⟩
  simp [divine, target_handler, hen, h1, halive, hs, Except.map]

/-- Witness for C2 at the concrete scenario of spec section 8: alive agents
A, B, C and pipeline target Z. -/
theorem invalid_target_fallback_witness :
    llm_action sample_state const_action_model "divine" =
      .error (.valueError "Z", apply_action_output sample_state bad_action_output) ∧
    (∃ s st1, divine sample_state const_action_model 0 = .ok (s, st1) ∧
      s ∈ get_alive_agents sample_state) :=
  invalid_target_fallback sample_state const_action_model bad_action_output 0
    rfl (fun _ _ => rfl) (by decide) (by decide)

theorem update_llm_request (st : AgentState) :
    (update_llm_state_from_packet st).request = st.request := by
  rcases h : st.info with _ | i <;> simp [update_llm_state_from_packet, h]

theorem update_llm_info (st : AgentState) :
    (update_llm_state_from_packet st).info = st.info := by
  rcases h : st.info with _ | i <;> simp [update_llm_state_from_packet, h]

theorem update_llm_setting (st : AgentState) :
    (update_llm_state_from_packet st).setting = st.setting := by
  rcases h : st.info with _ | i <;> simp [update_llm_state_from_packet, h]

theorem update_llm_talk_history (st : AgentState) :
    (update_llm_state_from_packet st).talk_history = st.talk_history := by
  rcases h : st.info with _ | i <;> simp [update_llm_state_from_packet, h]

theorem update_llm_whisper_history (st : AgentState) :
    (update_llm_state_from_packet st).whisper_history = st.whisper_history := by
  rcases h : st.info with _ | i <;> simp [update_llm_state_from_packet, h]

/-- C5 counterexample: a packet carrying both the INITIALIZE request kind and
an appended transcript entry leaves the transcripts empty afterwards — the
clear happens after the merge, so the appended entry is not present, contrary
to the claim. -/
theorem initialize_packet_drops_appended_entries :
    init_packet.request = Request.INITIALIZE ∧
    init_packet.talk_history = [sample_talk_entry] ∧
    (set_packet sample_state init_packet).talk_history = [] ∧
    (set_packet sample_state init_packet).whisper_history = [] := by decide

/-- C5 (amended): set_packet performs an additive merge — absent packet
fields leave existing state untouched, appended transcript entries extend the
accumulated transcripts — except that a packet whose request kind is
INITIALIZE clears both transcripts after the merge; consequently, for a
packet carrying both the INITIALIZE request kind and appended entries, the
transcripts are empty afterwards. -/
theorem set_packet_merge (st : AgentState) (p : Packet) :
    (set_packet st p).request = some p.request ∧
    (p.info = none → (set_packet st p).info = st.info) ∧
    (∀ i, p.info = some i → (set_packet st p).info = some i) ∧
    (p.setting = none → (set_packet st p).setting = st.setting) ∧
    (∀ s0, p.setting = some s0 → (set_packet st p).setting = some s0) ∧
    (p.request = Request.INITIALIZE →
      (set_packet st p).talk_history = [] ∧
      (set_packet st p).whisper_history = []) ∧
    (p.request ≠ Request.INITIALIZE →
      (set_packet st p).talk_history = st.talk_history ++ p.talk_history ∧
      (set_packet st p).whisper_history = st.whisper_history ++ p.whisper_history) := by
  unfold set_packet
  rcases hpi : p.info with _ | i <;> rcases hps : p.setting with _ | s0 <;>
    by_cases hth : p.talk_history = [] <;>
    by_cases hwh : p.whisper_history = [] <;>
    by_cases hreq : p.request = Request.INITIALIZE <;>
    by_cases hen : st.llm_enabled <;>
    simp [hpi, hps, hth, hwh, hreq, hen, update_llm_request, update_llm_info,
      update_llm_setting, update_llm_talk_history, update_llm_whisper_history]

/-- Witness for C5 (amended) at the concrete INITIALIZE packet. -/
theorem set_packet_merge_witness :
    (set_packet sample_state init_packet).request = some Request.INITIALIZE ∧
    (set_packet sample_state init_packet).info = sample_state.info ∧
    (set_packet sample_state init_packet).setting = sample_state.setting ∧
    (set_packet sample_state init_packet).talk_history = [] ∧
    (set_packet sample_state init_packet).whisper_history = [] :=
  ⟨(set_packet_merge sample_state init_packet).1,
   (set_packet_merge sample_state init_packet).2.1 rfl,
   (set_packet_merge sample_state init_packet).2.2.2.1 rfl,
   ((set_packet_merge sample_state init_packet).2.2.2.2.2.1 rfl).1,
   ((set_packet_merge sample_state init_packet).2.2.2.2.2.1 rfl).2⟩

theorem build_context_reset_talk_state (st : AgentState) :
    build_context (reset_talk_state st) = build_context st := by
  unfold reset_talk_state LLMState.reset_if_new_day
  by_cases h : ((info_day st : Int) ≠ st.llm_state.current_day)
  · rw [if_pos h]; rfl
  · rw [if_neg h]

/-- C6 counterexample: in the source, the day-boundary reset is not performed
before the snapshot is built — in both text-action calls the snapshot build
precedes the reset. -/
theorem snapshot_built_before_reset :
    ¬(llm_talk_steps.indexOf .resetDay < llm_talk_steps.indexOf .buildSnapshot) ∧
    ¬(llm_whisper_steps.indexOf .resetDay < llm_whisper_steps.indexOf .buildSnapshot) := by
  decide

/-- C6 (amended): in every text-action decision call the snapshot is built
first and the day-boundary reset runs immediately afterwards, before the
pipeline call; since the snapshot reads none of the fields the reset touches,
the call is observably identical to one that performs the reset before
building the snapshot. -/
theorem reset_runs_after_snapshot_build :
    (llm_talk_steps.indexOf .buildSnapshot < llm_talk_steps.indexOf .resetDay ∧
     llm_talk_steps.indexOf .resetDay < llm_talk_steps.indexOf .runPipeline ∧
     llm_whisper_steps.indexOf .buildSnapshot < llm_whisper_steps.indexOf .resetDay ∧
     llm_whisper_steps.indexOf .resetDay < llm_whisper_steps.indexOf .runPipeline) ∧
    (∀ st adapter, llm_talk st adapter = llm_talk_reset_first st adapter) ∧
    (∀ st adapter, llm_whisper st adapter = llm_whisper_reset_first st adapter) := by
  refine ⟨by decide, fun st adapter => ?_, fun st adapter => ?_⟩
  · unfold llm_talk llm_talk_reset_first
    rw [build_context_reset_talk_state]
  · unfold llm_whisper llm_whisper_reset_first
    rw [build_context_reset_talk_state]

theorem getD_append_singleton (lh : List (List Nat)) (x : List Nat) :
    (lh ++ [x]).getD lh.length [] = x := by
  induction lh with
  | nil => rfl
  | cons a t ih => simp [ih]

theorem set_append_getD (lh : List (List Nat)) (x elems : List Nat) (src : Nat)
    (h : src < lh.length) :
    ((lh ++ [x]).set lh.length elems).getD src [] = lh.getD src [] := by
  induction lh generalizing src with
  | nil => exact absurd h (Nat.not_lt_zero _)
  | cons a t ih =>
    cases src with
    | zero => rfl
    | succ n => simpa using ih n (Nat.lt_of_succ_lt_succ h)

/-- C9 counterexample: after the shallow list copy that _build_context
performs, mutating a record reached through the snapshot list changes the
sequence of records TurnMemory reads through its own list — the nested
elements are shared, so the snapshot is not a deep copy. -/
theorem snapshot_nested_mutation_visible :
    readList (pyListCopy [[0]] 0).1 [⟨1, "A", "WEREWOLF"⟩] 0 = [⟨1, "A", "WEREWOLF"⟩] ∧
    readList (pyListCopy [[0]] 0).1
      (writeRec [⟨1, "A", "WEREWOLF"⟩]
        (((pyListCopy [[0]] 0).1.getD (pyListCopy [[0]] 0).2 []).getD 0 0)
        ⟨1, "A", "HUMAN"⟩) 0 = [⟨1, "A", "HUMAN"⟩] := by decide

/-- C9 (amended): the list(x) copies of _build_context are shallow — the
snapshot gets a fresh top-level list object, distinct from the one TurnMemory
holds, so mutating the snapshot list itself leaves the contents and the read
view of the TurnMemory list unchanged; but the copied list holds the very
same element addresses, so the nested record dicts are shared with
TurnMemory rather than deep-copied. -/
theorem shallow_copy_semantics (lh : ListHeap) (rh : RecHeap) (src : Nat)
    (h : src < lh.length) (elems : List Nat) :
    (pyListCopy lh src).2 ≠ src ∧
    (pyListCopy lh src).1.getD (pyListCopy lh src).2 [] = lh.getD src [] ∧
    (writeList (pyListCopy lh src).1 (pyListCopy lh src).2 elems).getD src [] =
      lh.getD src [] ∧
    readList (writeList (pyListCopy lh src).1 (pyListCopy lh src).2 elems) rh src =
      readList lh rh src := by
  have h3 : (writeList (pyListCopy lh src).1 (pyListCopy lh src).2 elems).getD src [] =
      lh.getD src [] := set_append_getD lh _ elems src h
  refine ⟨?_, getD_append_singleton lh _, h3, ?_⟩
  · show lh.length ≠ src
    omega
  · unfold readList
    rw [h3]

/-- Witness for C9 (amended) at a concrete one-element heap. -/
theorem shallow_copy_semantics_witness :
    (pyListCopy [[0]] 0).2 ≠ 0 ∧
    (pyListCopy [[0]] 0).1.getD (pyListCopy [[0]] 0).2 [] = [[0]].getD 0 [] ∧
    (writeList (pyListCopy [[0]] 0).1 (pyListCopy [[0]] 0).2 [5]).getD 0 [] =
      [[0]].getD 0 [] ∧
    readList (writeList (pyListCopy [[0]] 0).1 (pyListCopy [[0]] 0).2 [5])
        [⟨1, "A", "WEREWOLF"⟩] 0 =
      readList [[0]] [⟨1, "A", "WEREWOLF"⟩] 0 :=
  shallow_copy_semantics [[0]] [⟨1, "A", "WEREWOLF"⟩] 0 (by decide) [5]

/-- C10: GameContext defines no emotional_state and no relationships field,
yet the emotional-context system prompt of the talk agent and the
strategy-and-emotional-context system prompt of the action agent read both;
each therefore faults with AttributeError on every context value instead of
returning a prompt string, every pipeline call faults, and the handlers take
the fallback path. -/
theorem missing_emotional_fields_fault :
    (∀ ctx : GameContext,
      TalkAgentPrompts.emotional_context ctx = .error .attributeError) ∧
    (∀ ctx : GameContext,
      ActionAgentPrompts.strategy_and_emotional_context ctx = .error .attributeError) ∧
    (∀ (ext : TalkModel) (ctx : GameContext) (msgs : List String),
      run_talk_agent ext ctx msgs = .error .attributeError) ∧
    (∀ (ext : ActionModel) (ctx : GameContext) (up : String),
      run_action_agent ext ctx up = .error .attributeError) ∧
    (∀ (st : AgentState) (ext : TalkModel) (r : Nat), st.comments ≠ [] →
      ∃ s st1, talk st (run_talk_agent ext) r = .ok (s, st1) ∧ s ∈ st.comments) ∧
    (∀ (st : AgentState) (ext : ActionModel) (r : Nat), get_alive_agents st ≠ [] →
      ∃ s st1, vote st (run_action_agent ext) r = .ok (s, st1) ∧
        s ∈ get_alive_agents st) := by
  refine ⟨fun ctx => rfl, fun ctx => rfl, fun ext ctx msgs => rfl, fun ext ctx up => rfl,
    fun st ext r hc => talk_always_falls_back st (run_talk_agent ext) r hc
      (Or.inr fun ctx msgs => ⟨.attributeError, rfl⟩),
    fun st ext r ha => target_always_falls_back st (run_action_agent ext) "vote" r ha
      (Or.inr fun ctx up => ⟨.attributeError, rfl⟩)⟩

/-- Witness for C10 at the concrete sample agent. -/
theorem missing_emotional_fields_fault_witness :
    (∃ s st1, talk sample_state (run_talk_agent failing_talk_model) 0 = .ok (s, st1) ∧
      s ∈ sample_state.comments) ∧
    (∃ s st1, vote sample_state (run_action_agent failing_action_model) 0 = .ok (s, st1) ∧
      s ∈ get_alive_agents sample_state) :=
  ⟨missing_emotional_fields_fault.2.2.2.2.1 sample_state failing_talk_model 0 (by decide),
   missing_emotional_fields_fault.2.2.2.2.2 sample_state failing_action_model 0 (by decide)⟩

end AiwolfAgent
